import Mathlib

/-!
Verification development for a repository of MCP (Model Context Protocol)
example scripts: Python servers exposing tools/resources/prompts and Python
clients that discover those capabilities and orchestrate tool calls.

The Python sources are shallowly embedded: Python `str` becomes `String`,
`int` becomes `Int`, `float` becomes `Rat` (exact rationals standing in for
the finite float values occurring in the examples), dicts of JSON data become
association lists, the flat notes directory becomes an association list from
file stem to parsed note (in directory-iteration order), and fallible Python
code becomes `Option`/`Except`-returning functions.
-/

namespace MCPExamples

/-! ## Python string primitives

Python's `in`, `startswith`, `endswith` and `split` on strings, embedded over
the character lists underlying `String`. -/

/-- Python `needle in hay` (substring containment): `needle` is a prefix of
some tail of `hay`. -/
def pyContains (hay needle : String) : Bool :=
  (List.range (hay.data.length + 1)).any fun i =>
    needle.data.isPrefixOf (hay.data.drop i)

/-- Python `s.startswith(p)`. -/
def pyStartsWith (s p : String) : Bool :=
  p.data.isPrefixOf s.data

/-- Python `s.endswith(p)`. -/
def pyEndsWith (s p : String) : Bool :=
  p.data.isSuffixOf s.data

/-- First occurrence of `sep` in `l`: the part before it and the part after
it.  `none` when `sep` does not occur. -/
def breakOnSub (sep l : List Char) : Option (List Char × List Char) :=
  (List.range (l.length + 1)).findSome? fun i =>
    if sep.isPrefixOf (l.drop i) then some (l.take i, l.drop (i + sep.length))
    else none

/-- Fuel-driven worker for `pySplit`: repeatedly chop at the leftmost
occurrence of `sep`.  The fuel is an upper bound on the number of chops;
`pySplit` passes enough for any input. -/
def pySplitAux (sep : List Char) : Nat → List Char → List (List Char)
  | 0, l => [l]
  | fuel + 1, l =>
    match breakOnSub sep l with
    | none => [l]
    | some (pre, post) => pre :: pySplitAux sep fuel post

/-- Python `s.split(sep)` for a nonempty separator. -/
def pySplit (s sep : String) : List String :=
  (pySplitAux sep.data (s.data.length + 1) s.data).map String.mk

/-! ## Python values

The dynamically typed values flowing through tool arguments.  `Bool` is kept
distinct from `Int` in the datatype, but the `isinstance` embeddings below
record that Python's `bool` is a subclass of `int`. -/

inductive PyVal where
  | vInt (n : Int)
  | vFloat (q : Rat)
  | vBool (b : Bool)
  | vStr (s : String)
  | vNone
deriving DecidableEq, Repr

/-- Python `isinstance(v, int)` — `True` for `bool` values too, because
`bool` is a subclass of `int`. -/
def pyIsInstInt : PyVal → Bool
  | .vInt _ => true
  | .vBool _ => true
  | _ => false

/-- Python `isinstance(v, (int, float))`. -/
def pyIsInstNum : PyVal → Bool
  | .vInt _ => true
  | .vBool _ => true
  | .vFloat _ => true
  | _ => false

/-- Python `isinstance(v, bool)`. -/
def pyIsInstBool : PyVal → Bool
  | .vBool _ => true
  | _ => false

/-- Python `isinstance(v, str)`. -/
def pyIsInstStr : PyVal → Bool
  | .vStr _ => true
  | _ => false

/-- The natural number denoted by a nonempty string of decimal digits. -/
def digitsToNat (cs : List Char) : Nat :=
  cs.foldl (fun a c => a * 10 + (c.toNat - 48)) 0

/-- Python `int(s)` on a string: optional surrounding whitespace, optional
sign, then a nonempty run of decimal digits; anything else raises
(`none` here). -/
def pyParseInt (s : String) : Option Int :=
  let t := s.trim
  let (sign, rest) :=
    if pyStartsWith t "-" then ((-1 : Int), t.drop 1)
    else if pyStartsWith t "+" then ((1 : Int), t.drop 1)
    else ((1 : Int), t)
  if rest.length > 0 && rest.data.all (·.isDigit) then
    some (sign * (digitsToNat rest.data : Int))
  else none

/-- Python `float(s)` on a string, for the plain decimal forms
(`"12"`, `"-3.5"`, `".5"`); exponent and infinity forms, which never occur
in this repository's data, are not parsed. -/
def pyParseFloat (s : String) : Option Rat :=
  let t := s.trim
  let (sign, rest) :=
    if pyStartsWith t "-" then ((-1 : Rat), t.drop 1)
    else if pyStartsWith t "+" then ((1 : Rat), t.drop 1)
    else ((1 : Rat), t)
  match rest.splitOn "." with
  | [w] =>
    if w.length > 0 && w.data.all (·.isDigit) then
      some (sign * (digitsToNat w.data : Rat))
    else none
  | [w, f] =>
    if (w.length + f.length > 0) && w.data.all (·.isDigit)
        && f.data.all (·.isDigit) then
      some (sign * ((digitsToNat w.data : Rat)
        + (digitsToNat f.data : Rat) / ((10 : Rat) ^ f.length)))
    else none
  | _ => none

/-- Truncation toward zero, as Python `int(float)` does. -/
def ratTrunc (q : Rat) : Int :=
  if q < 0 then -((-q).floor) else q.floor

/-- Python `int(v)`: identity on ints, `0`/`1` on bools, truncation on
floats, decimal parse on strings; raises (`none`) elsewhere. -/
def pyInt : PyVal → Option Int
  | .vInt n => some n
  | .vBool b => some (if b then 1 else 0)
  | .vFloat q => some (ratTrunc q)
  | .vStr s => pyParseInt s
  | .vNone => none

/-- Python `float(v)`: raises (`none`) on `None`; parses strings. -/
def pyFloat : PyVal → Option Rat
  | .vInt n => some (n : Rat)
  | .vBool b => some (if b then 1 else 0)
  | .vFloat q => some q
  | .vStr s => pyParseFloat s
  | .vNone => none

/-- Python `bool(v)` (truthiness). -/
def pyTruthy : PyVal → Bool
  | .vInt n => n != 0
  | .vFloat q => q != 0
  | .vBool b => b
  | .vStr s => s != ""
  | .vNone => false

/-- Python `str(v)` as far as the claims need it: exact for ints, bools,
strings and `None`; for floats, integral values print with a trailing
`.0` as Python does and other finite values print as decimals via the
rational's own rendering. -/
def pyStr : PyVal → String
  | .vInt n => toString n
  | .vBool b => if b then "True" else "False"
  | .vStr s => s
  | .vNone => "None"
  | .vFloat q => if q.den = 1 then toString q.num ++ ".0" else toString q

/-! ## JSON

The server serialises note listings with `json.dumps(..., indent=2)` and the
client re-parses them with `json.loads`.  `Json` is the value universe those
library calls work over (numbers in this repository's serialised data are
integers). -/

inductive Json where
  | jnull
  | jbool (b : Bool)
  | jnum (n : Int)
  | jstr (s : String)
  | jarr (xs : List Json)
  | jobj (fields : List (String × Json))

/-- Lower-case hexadecimal rendering of `n`, zero-padded to four digits, as
in Python's `\u` escapes. -/
def hex4 (n : Nat) : String :=
  let dig := fun (k : Nat) =>
    if k < 10 then Char.ofNat (48 + k) else Char.ofNat (97 + (k - 10))
  String.mk [dig (n / 4096 % 16), dig (n / 256 % 16), dig (n / 16 % 16), dig (n % 16)]

/-- One character of a `json.dumps` string literal: `"` and `\` are
backslash-escaped, control and non-ASCII characters become `\uXXXX`
(Python's default `ensure_ascii=True`; characters beyond the basic
multilingual plane, absent from this repository's data, are rendered as a
single `\u` escape rather than a surrogate pair). -/
def jsonEscapeChar (c : Char) : String :=
  if c = '"' then "\\\""
  else if c = '\\' then "\\\\"
  else if c = '\n' then "\\n"
  else if c = '\t' then "\\t"
  else if c = '\r' then "\\r"
  else if c.toNat < 32 ∨ c.toNat > 126 then "\\u" ++ hex4 c.toNat
  else String.mk [c]

/-- A `json.dumps` string literal. -/
def jsonQuote (s : String) : String :=
  "\"" ++ String.join (s.data.map jsonEscapeChar) ++ "\""

/-- `2 * d` spaces: the indentation at nesting depth `d` under
`json.dumps(..., indent=2)`. -/
def jsonIndent (d : Nat) : String :=
  String.mk (List.replicate (2 * d) ' ')

mutual

/-- `json.dumps(v, indent=2)` at nesting depth `d`. -/
def jsonDumpAt (d : Nat) : Json → String
  | .jnull => "null"
  | .jbool b => if b then "true" else "false"
  | .jnum n => toString n
  | .jstr s => jsonQuote s
  | .jarr [] => "[]"
  | .jarr (x :: xs) =>
    "[\n" ++ jsonDumpItems (d + 1) x xs ++ "\n" ++ jsonIndent d ++ "]"
  | .jobj [] => "\x7b\x7d"
  | .jobj ((k, v) :: fs) =>
    "\x7b\n" ++ jsonDumpFields (d + 1) k v fs ++ "\n" ++ jsonIndent d ++ "\x7d"
termination_by j => sizeOf j
decreasing_by all_goals simp_wf <;> omega

/-- The comma-and-newline separated element lines of an array. -/
def jsonDumpItems (d : Nat) (x : Json) (xs : List Json) : String :=
  jsonIndent d ++ jsonDumpAt d x ++
    match xs with
    | [] => ""
    | y :: ys => ",\n" ++ jsonDumpItems d y ys
termination_by 1 + sizeOf x + sizeOf xs
decreasing_by all_goals simp_wf <;> omega

/-- The comma-and-newline separated `"key": value` lines of an object. -/
def jsonDumpFields (d : Nat) (k : String) (v : Json) (fs : List (String × Json)) :
    String :=
  jsonIndent d ++ jsonQuote k ++ ": " ++ jsonDumpAt d v ++
    match fs with
    | [] => ""
    | (k', v') :: gs => ",\n" ++ jsonDumpFields d k' v' gs
termination_by 1 + sizeOf v + sizeOf fs
decreasing_by all_goals (simp_wf; omega)

end

/-- `json.dumps(v, indent=2)`. -/
def jsonDumps (v : Json) : String := jsonDumpAt 0 v

/-- Skip JSON whitespace. -/
def jsonSkipWs : List Char → List Char
  | c :: cs =>
    if c = ' ' ∨ c = '\n' ∨ c = '\t' ∨ c = '\r' then jsonSkipWs cs else c :: cs
  | [] => []

/-- Hexadecimal digit value. -/
def hexVal (c : Char) : Option Nat :=
  if '0' ≤ c ∧ c ≤ '9' then some (c.toNat - 48)
  else if 'a' ≤ c ∧ c ≤ 'f' then some (c.toNat - 87)
  else if 'A' ≤ c ∧ c ≤ 'F' then some (c.toNat - 55)
  else none

/-- Parse the body of a JSON string literal (the opening quote already
consumed), returning the decoded characters and the input after the closing
quote. -/
def jsonParseStr : Nat → List Char → Option (List Char × List Char)
  | 0, _ => none
  | _ + 1, [] => none
  | fuel + 1, c :: cs =>
    if c = '"' then some ([], cs)
    else if c = '\\' then
      match cs with
      | 'u' :: a :: b :: c' :: d :: rest => do
        let va ← hexVal a
        let vb ← hexVal b
        let vc ← hexVal c'
        let vd ← hexVal d
        let (tail, rem) ← jsonParseStr fuel rest
        pure (Char.ofNat (va * 4096 + vb * 256 + vc * 16 + vd) :: tail, rem)
      | e :: rest => do
        let decoded ←
          if e = '"' then some '"'
          else if e = '\\' then some '\\'
          else if e = '/' then some '/'
          else if e = 'n' then some '\n'
          else if e = 't' then some '\t'
          else if e = 'r' then some '\r'
          else none
        let (tail, rem) ← jsonParseStr fuel rest
        pure (decoded :: tail, rem)
      | [] => none
    else do
      let (tail, rem) ← jsonParseStr fuel cs
      pure (c :: tail, rem)

mutual

/-- Recursive-descent `json.loads`, fuelled (the fuel is an upper bound on
recursion depth plus element count; `jsonLoads` passes enough for any
input).  Numbers are parsed in their integer form, the only form occurring
in this repository's serialised data. -/
def jsonParseVal : Nat → List Char → Option (Json × List Char)
  | 0, _ => none
  | fuel + 1, input =>
    match jsonSkipWs input with
    | [] => none
    | c :: cs =>
      if c = 'n' then
        if cs.take 3 = ['u', 'l', 'l'] then some (.jnull, cs.drop 3) else none
      else if c = 't' then
        if cs.take 3 = ['r', 'u', 'e'] then some (.jbool true, cs.drop 3)
        else none
      else if c = 'f' then
        if cs.take 4 = ['a', 'l', 's', 'e'] then some (.jbool false, cs.drop 4)
        else none
      else if c = '"' then do
        let (chars, rest) ← jsonParseStr fuel cs
        pure (.jstr (String.mk chars), rest)
      else if c = '[' then
        match jsonSkipWs cs with
        | ']' :: rest => some (.jarr [], rest)
        | rest => do
          let (xs, rem) ← jsonParseItems fuel rest
          pure (.jarr xs, rem)
      else if c = '\x7b' then
        match jsonSkipWs cs with
        | '\x7d' :: rest => some (.jobj [], rest)
        | rest => do
          let (fs, rem) ← jsonParseMembers fuel rest
          pure (.jobj fs, rem)
      else if c = '-' ∨ c.isDigit then
        let (sign, ds) := if c = '-' then ((-1 : Int), cs) else (1, c :: cs)
        let digits := ds.takeWhile (·.isDigit)
        if digits.isEmpty then none
        else some (.jnum (sign * (digitsToNat digits : Int)),
          ds.dropWhile (·.isDigit))
      else none

/-- Comma-separated array elements up to the closing bracket. -/
def jsonParseItems : Nat → List Char → Option (List Json × List Char)
  | 0, _ => none
  | fuel + 1, input => do
    let (v, rest) ← jsonParseVal fuel input
    match jsonSkipWs rest with
    | ',' :: more => do
      let (vs, rem) ← jsonParseItems fuel more
      pure (v :: vs, rem)
    | ']' :: rem => pure ([v], rem)
    | _ => none

/-- Comma-separated object members up to the closing brace. -/
def jsonParseMembers : Nat → List Char → Option (List (String × Json) × List Char)
  | 0, _ => none
  | fuel + 1, input =>
    match jsonSkipWs input with
    | '"' :: cs => do
      let (key, afterKey) ← jsonParseStr fuel cs
      match jsonSkipWs afterKey with
      | ':' :: afterColon => do
        let (v, rest) ← jsonParseVal fuel afterColon
        match jsonSkipWs rest with
        | ',' :: more => do
          let (fs, rem) ← jsonParseMembers fuel more
          pure ((String.mk key, v) :: fs, rem)
        | '\x7d' :: rem => pure ([(String.mk key, v)], rem)
        | _ => none
      | _ => none
    | _ => none

end

/-- `json.loads(s)`: parse one JSON value and require only whitespace after
it; raises (`none`) otherwise. -/
def jsonLoads (s : String) : Option Json := do
  let (v, rest) ← jsonParseVal (s.data.length + 1) s.data
  if jsonSkipWs rest = [] then pure v else none

/-- Python truthiness of a parsed JSON value (`if data:`): empty arrays,
objects and strings, zero, `false` and `null` are falsy. -/
def jsonTruthy : Json → Bool
  | .jnull => false
  | .jbool b => b
  | .jnum n => n != 0
  | .jstr s => s != ""
  | .jarr xs => !xs.isEmpty
  | .jobj fs => !fs.isEmpty

/-- `obj[key]` on a parsed JSON object, defaulting to `""` for the string
fields the client reads. -/
def jsonGetStr (v : Json) (key : String) : String :=
  match v with
  | .jobj fs =>
    match fs.lookup key with
    | some (.jstr s) => s
    | _ => ""
  | _ => ""

/-! ## Full server (`mcp-servers/stdio/python/full-server/server.py`)

The notes directory is embedded as an association list from file stem (the
file name without its `.json` suffix) to the parsed note, listed in
directory-iteration order. -/

/-- A stored note (`note_data` in `create_note`). -/
structure Note where
  id : String
  title : String
  content : String
  tags : List String
  created_at : String
  updated_at : String
deriving DecidableEq, Repr

/-- The notes directory: file stem paired with the parsed note, in the
order `NOTES_DIR.glob("*.json")` yields the files. -/
abbrev NoteStore := List (String × Note)

/-- `re.sub(r'[^\w\-]', '_', title.lower())`: every character of the
lower-cased title that is not alphanumeric, underscore or hyphen becomes an
underscore. -/
def safeTitle (title : String) : String :=
  String.mk (title.toLower.data.map fun c =>
    if c.isAlphanum ∨ c = '_' ∨ c = '-' then c else '_')

/-- Writing a file into the directory: overwrite the entry with the same
stem if one exists, otherwise the new file appears after the existing ones
(the iteration order this embedding fixes for `glob`). -/
def writeNoteFile (store : NoteStore) (stem : String) (note : Note) :
    NoteStore :=
  if store.any (fun p => p.1 == stem) then
    store.map fun p => if p.1 == stem then (stem, note) else p
  else store ++ [(stem, note)]

/-- The dictionary returned by the `create_note` tool. -/
structure CreateNoteResult where
  success : Bool
  note_id : String
  title : String
  path : String
  message : String
deriving DecidableEq, Repr

/-- `create_note` (server.py:141-187).  `noteId` is the `uuid.uuid4()`
draw and `now` the `datetime.now().isoformat()` timestamp, both passed in
explicitly; the file-system write becomes `writeNoteFile`.  The `except`
arm of the source returns `{"success": False, ...}`; no step of the body
can fail in this embedding, so only the successful arm is reachable. -/
def create_note (store : NoteStore) (now : String) (noteId : String)
    (title content : String) (tags : List String) :
    NoteStore × CreateNoteResult :=
  let note : Note :=
    { id := noteId, title := title, content := content, tags := tags,
      created_at := now, updated_at := now }
  let stem := safeTitle title ++ "_" ++ noteId.take 8
  (writeNoteFile store stem note,
   { success := true, note_id := noteId, title := title,
     path := stem ++ ".json",
     message := "Note '" ++ title ++ "' created successfully!" })

/-- The preview field built by `find_notes` and the `notes:search:` branch:
`note["content"][:150] + "..." if len(note["content"]) > 150 else
note["content"]`. -/
def notePreview (content : String) : String :=
  if content.length > 150 then content.take 150 ++ "..." else content

/-- One entry of `find_notes`' result list. -/
structure FindNoteEntry where
  id : String
  title : String
  tags : List String
  created_at : String
  updated_at : String
  preview : String
deriving DecidableEq, Repr

/-- The dictionary returned by the `find_notes` tool. -/
structure FindNotesResult where
  success : Bool
  query : Option String
  tags : Option (List String)
  count : Nat
  results : List FindNoteEntry
deriving DecidableEq, Repr

/-- The query filter of `find_notes`: a note is skipped when the query is
truthy (not `None`, not empty) and its lower-cased text occurs in neither
the lower-cased title nor the lower-cased content. -/
def noteQueryPasses (query : Option String) (n : Note) : Bool :=
  match query with
  | none => true
  | some q =>
    if q == "" then true
    else pyContains n.title.toLower q.toLower
      || pyContains n.content.toLower q.toLower

/-- The tags filter of `find_notes`: a note is skipped when the tag list is
truthy (not `None`, not empty) and some requested tag is missing from the
note's tags. -/
def noteTagsPass (tags : Option (List String)) (n : Note) : Bool :=
  match tags with
  | none => true
  | some ts => if ts.isEmpty then true else ts.all fun t => n.tags.contains t

/-- `find_notes` (server.py:189-241).  The per-file `try/except` that skips
unreadable files is absorbed into the store holding only parsed notes. -/
def find_notes (query : Option String) (tags : Option (List String))
    (store : NoteStore) : FindNotesResult :=
  let results := store.filterMap fun p =>
    if noteQueryPasses query p.2 && noteTagsPass tags p.2 then
      some { id := p.2.id, title := p.2.title, tags := p.2.tags,
             created_at := p.2.created_at, updated_at := p.2.updated_at,
             preview := notePreview p.2.content : FindNoteEntry }
    else none
  { success := true, query := query, tags := tags,
    count := results.length, results := results }

/-- One `types.Content` block of a resource read response. -/
structure RContent where
  type : String
  data : String
deriving DecidableEq, Repr

/-- `types.ResourceReadResponse` as the notes handler builds it
(`is_error` defaults to false). -/
structure ResourceReadResponse where
  uri : String
  title : String
  content : List RContent
  isError : Bool := false
deriving DecidableEq, Repr

/-- The JSON summary of one note in the `notes:list` listing. -/
def noteListEntryJson (n : Note) : Json :=
  .jobj [("id", .jstr n.id), ("title", .jstr n.title),
         ("tags", .jarr (n.tags.map .jstr)),
         ("updated_at", .jstr n.updated_at)]

/-- The JSON summary of one note in the `notes:search:` results. -/
def noteSearchEntryJson (n : Note) : Json :=
  .jobj [("id", .jstr n.id), ("title", .jstr n.title),
         ("preview", .jstr (notePreview n.content)),
         ("tags", .jarr (n.tags.map .jstr))]

/-- `get_notes_resource` (server.py:302-419), the resource handler for
`notes:` URIs.  Its outer `try/except` can never fire here — every branch
of this embedding is total — matching the handler's design of always
returning a response.  The per-file `try/except`s are absorbed into the
store holding only parsed notes. -/
def get_notes_resource (store : NoteStore) (uri : String) :
    ResourceReadResponse :=
  if uri == "notes:list" then
    { uri := uri, title := "All Notes",
      content :=
        [{ type := "application/json",
           data := jsonDumps (.jarr (store.map fun p => noteListEntryJson p.2)) }] }
  else if pyStartsWith uri "notes:id:" then
    let note_id := (pySplit uri "notes:id:").getD 1 ""
    match store.find? (fun p =>
        p.2.id == note_id || pyEndsWith p.1 (note_id.take 8)) with
    | some p =>
      { uri := uri, title := p.2.title,
        content :=
          [{ type := "text/markdown",
             data := "# " ++ p.2.title ++ "\n\n" ++ p.2.content
               ++ "\n\nTags: " ++ String.intercalate ", " p.2.tags }] }
    | none =>
      { uri := uri, title := "Note Not Found",
        content :=
          [{ type := "text/plain",
             data := "Note with ID " ++ note_id ++ " not found." }],
        isError := true }
  else if pyStartsWith uri "notes:search:" then
    let search_query := (pySplit uri "notes:search:").getD 1 ""
    let matching := store.filterMap fun p =>
      if pyContains p.2.title.toLower search_query.toLower
          || pyContains p.2.content.toLower search_query.toLower then
        some (noteSearchEntryJson p.2)
      else none
    { uri := uri, title := "Search Results for '" ++ search_query ++ "'",
      content :=
        [{ type := "application/json",
           data := jsonDumps (.jarr matching) }] }
  else
    { uri := uri, title := "Unknown Resource",
      content :=
        [{ type := "text/plain",
           data := "Unknown resource URI pattern. Valid patterns are: notes:list, notes:id:<id>, notes:search:<query>" }],
      isError := true }

/-- One `types.PromptMessage` whose content is a text block. -/
structure PromptMessage where
  role : String
  text : String
deriving DecidableEq, Repr

/-- `types.GetPromptResult`. -/
structure GetPromptResult where
  description : String
  messages : List PromptMessage
deriving DecidableEq, Repr

/-- The f-string template of the `ideastorm` prompt, parameterised by the
already-clamped idea count (server.py:591-606). -/
def ideastormTemplate (topic perspective : String) (count : Int) : String :=
  "\n# Creative Idea Storm: " ++ topic
    ++ "\n\n## Task\nGenerate " ++ toString count
    ++ " innovative and thought-provoking ideas related to " ++ topic
    ++ ".\n\n## Perspective\nConsider the " ++ perspective
    ++ " perspective when generating these ideas.\n\n## Format\nPresent each idea as a numbered list item with a brief title and 1-2 sentence explanation.\n\n1. [Idea Title]: Brief explanation of the idea.\n2. [Idea Title]: Brief explanation of the idea.\n...etc.\n"

/-- `ideastorm_prompt` (server.py:576-622): the requested count is clamped
by `count = max(1, min(20, count))` before being spliced into the
template. -/
def ideastorm_prompt (topic perspective : String) (count : Int) :
    GetPromptResult :=
  let count := max 1 (min 20 count)
  { description := "Generate innovative ideas related to " ++ topic,
    messages :=
      [{ role := "user",
         text := ideastormTemplate topic perspective count }] }

/-! ## Math servers (`uv-offical-math-demo/math_server.py`,
`uv-single-file-server/mcp-server.py`) and the server-side dispatcher -/

/-- `add` (math_server.py:23-26 and mcp-server.py:14-17). -/
def add (a b : Int) : Int := a + b

/-- `subtract` (math_server.py:28-31). -/
def subtract (a b : Int) : Int := a - b

/-- `multiply` (math_server.py:33-36). -/
def multiply (a b : Int) : Int := a * b

/-- `divide` (math_server.py:38-43): raises `ValueError("Cannot divide by
zero")` when `b == 0`. -/
def divide (a b : Rat) : Except String Rat :=
  if b == 0 then .error "Cannot divide by zero" else .ok (a / b)

/-- The result envelope of a server-side tool call: an error flag (the
failure indicator of the envelope — `False` is success) and the text
content blocks. -/
structure ToolCallResult where
  isError : Bool
  content : List String
deriving DecidableEq, Repr

/-- A registered tool handler: arguments in, a value out or a raised
exception's message. -/
def Handler : Type := List (String × PyVal) → Except String PyVal

/-- Modelled from the spec: the FastMCP server-side dispatcher, which is
imported library code not present in this repository.  Per the spec's
dispatcher contract, it maintains a fixed mapping from tool name to handler,
fails with "not found" when the name is absent, and converts any exception a
handler raises into a structured failure result (error flag plus message)
instead of propagating it; a successful handler value is rendered as a text
content block. -/
def dispatch_tool (handlers : List (String × Handler)) (name : String)
    (args : List (String × PyVal)) : ToolCallResult :=
  match handlers.lookup name with
  | none => { isError := true, content := ["Tool not found: " ++ name] }
  | some h =>
    match h args with
    | .ok v => { isError := false, content := [pyStr v] }
    | .error msg => { isError := true, content := [msg] }

/-- Integer argument extraction for a typed handler (the imported server
library validates arguments against the annotation before the call). -/
def argInt (args : List (String × PyVal)) (name : String) : Option Int :=
  match args.lookup name with
  | some (.vInt n) => some n
  | _ => none

/-- Float argument extraction for a typed handler; integers are accepted
for a `float` annotation as the library's validation does. -/
def argFloat (args : List (String × PyVal)) (name : String) : Option Rat :=
  match args.lookup name with
  | some (.vFloat q) => some q
  | some (.vInt n) => some ((n : Rat))
  | _ => none

/-- `add` wrapped as a registered handler. -/
def addHandler : Handler := fun args =>
  match argInt args "a", argInt args "b" with
  | some a, some b => .ok (.vInt (add a b))
  | _, _ => .error "Invalid arguments"

/-- `subtract` wrapped as a registered handler. -/
def subtractHandler : Handler := fun args =>
  match argInt args "a", argInt args "b" with
  | some a, some b => .ok (.vInt (subtract a b))
  | _, _ => .error "Invalid arguments"

/-- `multiply` wrapped as a registered handler. -/
def multiplyHandler : Handler := fun args =>
  match argInt args "a", argInt args "b" with
  | some a, some b => .ok (.vInt (multiply a b))
  | _, _ => .error "Invalid arguments"

/-- `divide` wrapped as a registered handler: the `ValueError` it raises
surfaces as the handler's exception. -/
def divideHandler : Handler := fun args =>
  match argFloat args "a", argFloat args "b" with
  | some a, some b => (divide a b).map .vFloat
  | _, _ => .error "Invalid arguments"

/-- The math server's registered tool mapping (math_server.py:23-43). -/
def mathServerHandlers : List (String × Handler) :=
  [("add", addHandler), ("subtract", subtractHandler),
   ("multiply", multiplyHandler), ("divide", divideHandler)]

/-! ## Full client (`mcp-clients/stdio/python/full-client/client.py`) -/

/-- A tool descriptor discovered at connection time: the tool's name and,
when the descriptor carries an input schema with a `properties` mapping,
that mapping from parameter name to the property's declared `"type"` field
(`none` inside when the property object has no `"type"` key). -/
structure ToolDescriptor where
  name : String
  inputSchema : Option (List (String × Option String))
deriving DecidableEq, Repr

/-- The per-argument coercion step of `execute_tool`
(client.py:348-374): convert the value to the schema-declared type when it
is not already an instance of it; a failed `int`/`float` conversion logs a
warning and passes the original value through; the `boolean` arm never
fails (strings are compared against `"true"/"yes"/"1"`, anything else goes
through `bool(...)`); any other declared type passes the value unchanged.
Returns the value handed to the dispatch together with the warnings
logged. -/
def coerce_argument (argName : String) (propType : String) (v : PyVal) :
    PyVal × List String :=
  if propType == "integer" && !pyIsInstInt v then
    match pyInt v with
    | some n => (.vInt n, [])
    | none =>
      (v, ["Could not convert " ++ argName ++ "=" ++ pyStr v ++ " to integer"])
  else if propType == "number" && !pyIsInstNum v then
    match pyFloat v with
    | some q => (.vFloat q, [])
    | none =>
      (v, ["Could not convert " ++ argName ++ "=" ++ pyStr v ++ " to number"])
  else if propType == "boolean" && !pyIsInstBool v then
    match v with
    | .vStr s => (.vBool (s.toLower == "true" || s.toLower == "yes"
        || s.toLower == "1"), [])
    | _ => (.vBool (pyTruthy v), [])
  else (v, [])

/-- The argument-conversion loop of `execute_tool` (client.py:342-377):
with a schema, each argument named in `properties` is coerced to its
declared type (defaulting to `"string"` when the property has no `"type"`
key) and arguments absent from the schema pass through; without a schema
the arguments are used as-is.  Returns the converted arguments and all
coercion warnings. -/
def convert_arguments (schema : Option (List (String × Option String)))
    (args : List (String × PyVal)) :
    List (String × PyVal) × List String :=
  match schema with
  | some properties =>
    args.foldr (fun (a : String × PyVal) acc =>
      match properties.lookup a.1 with
      | some tyField =>
        let (v, ws) := coerce_argument a.1 (tyField.getD "string") a.2
        ((a.1, v) :: acc.1, ws ++ acc.2)
      | none => ((a.1, a.2) :: acc.1, acc.2)) ([], [])
  | none => (args, [])

/-- A content item of a tool-call result as the client inspects it: an
object with a `.text` attribute, or one with a string `.data` attribute. -/
inductive ClientContentItem where
  | textItem (s : String)
  | dataItem (s : String)
deriving DecidableEq, Repr

/-- The result-formatting tail of `execute_tool` (client.py:386-446):
concatenate the text of every content item (no content at all becomes the
fixed success message). -/
def formatToolResult (content : List ClientContentItem) : String :=
  if content.isEmpty then "Tool executed successfully, but returned no content"
  else String.join (content.map fun
    | .textItem s => s
    | .dataItem s => s)

/-- `execute_tool` (client.py:320-457).  `transport` stands for
`session.call_tool`; the second component of the result records every call
actually dispatched over the transport (name and converted arguments).
An unknown tool name raises `ValueError(f"Tool '{tool_name}' not found")`
and a missing session raises `RuntimeError("Not connected to server")`;
both are caught by the function's own `except`, which returns
`f"Error: Error executing tool {tool_name}: {exception}"` — the caller
always gets a string back, never a propagated exception. -/
def execute_tool (availableTools : List ToolDescriptor) (connected : Bool)
    (transport : String → List (String × PyVal) → List ClientContentItem)
    (toolName : String) (toolArgs : List (String × PyVal)) :
    String × List (String × List (String × PyVal)) :=
  match availableTools.find? (fun t => t.name == toolName) with
  | none =>
    ("Error: Error executing tool " ++ toolName ++ ": Tool '" ++ toolName
      ++ "' not found", [])
  | some tool =>
    if connected then
      let converted := (convert_arguments tool.inputSchema toolArgs).1
      (formatToolResult (transport toolName converted),
       [(toolName, converted)])
    else
      ("Error: Error executing tool " ++ toolName
        ++ ": Not connected to server", [])

/-- What the client prints for a handled resource command. -/
inductive ClientOutput where
  | notesPanel (entries : List (String × String))
  | message (s : String)
  | raisedError (s : String)
deriving DecidableEq, Repr

/-- The `list notes` branch of `handle_resource_commands`
(client.py:468-482): read the `notes:list` resource, `json.loads` the first
content block's data, and print either a panel of titles and ids or the
"No notes found" message; a `json.loads` failure would propagate out of the
branch, shown here as `raisedError`. -/
def client_list_notes (store : NoteStore) : ClientOutput :=
  let response := get_notes_resource store "notes:list"
  match jsonLoads ((response.content.getD 0 { type := "", data := "" }).data) with
  | none => .raisedError "json.loads failed"
  | some data =>
    if jsonTruthy data then
      .notesPanel (match data with
        | .jarr notes => notes.map fun n => (jsonGetStr n "title", jsonGetStr n "id")
        | _ => [])
    else .message "No notes found in the knowledge base"

/-! ## Session traces (capability discovery and re-listing)

The MCP requests each client sends over its transport, used to settle how
often `list_tools` is issued.  Hosted-model (Anthropic) calls are not MCP
traffic and do not appear in the traces. -/

/-- One MCP request sent over a client's transport. -/
inductive MCPCall where
  | handshake
  | listTools
  | listPrompts
  | callTool (name : String)
  | readResource (uri : String)
  | getPrompt (name : String)
deriving DecidableEq, Repr

/-- One content block of a hosted-model reply: plain text or a tool-use
request. -/
inductive ModelContent where
  | text (s : String)
  | toolUse (name : String) (args : List (String × PyVal))
deriving DecidableEq, Repr

/-- Number of `listTools` requests in a trace. -/
def countListTools (trace : List MCPCall) : Nat :=
  trace.countP (· == .listTools)

/-- Number of tool-use blocks in a model reply. -/
def countToolUses (resp : List ModelContent) : Nat :=
  resp.countP fun c => match c with | .toolUse _ _ => true | _ => false

/-- The MCP requests of the full client's `connect_to_server`
(client.py:120-193): the initialize handshake, one `list_tools`, one `list_prompts`, and
the `get_resource_roots` tool call; the returned tool descriptors are
stored in `self.available_tools` for the whole session. -/
def fullClientConnectTrace : List MCPCall :=
  [.handshake, .listTools, .listPrompts, .callTool "get_resource_roots"]

/-- The MCP requests of the full client's `process_query`
(client.py:195-308) for one model reply: only the dispatches made by
`execute_tool` against the cached descriptor list — no re-listing. -/
def fullClientProcessQueryTrace (tools : List ToolDescriptor)
    (transport : String → List (String × PyVal) → List ClientContentItem)
    (resp : List ModelContent) : List MCPCall :=
  resp.flatMap fun c =>
    match c with
    | .text _ => []
    | .toolUse n args =>
      (execute_tool tools true transport n args).2.map fun ev => .callTool ev.1

/-- The MCP requests of the basic client's `connect_to_server`
(python-basic-client/client.py:43-94). -/
def basicClientConnectTrace : List MCPCall := [.handshake, .listTools]

/-- The MCP requests of the basic client's `process_query`
(python-basic-client/client.py:96-196) for one model reply: a fresh
`list_tools` at the top of every call (line 117), then one `call_tool` per
tool-use block, dispatched without any check against the listed names. -/
def basicClientProcessQueryTrace (resp : List ModelContent) : List MCPCall :=
  .listTools :: resp.flatMap fun c =>
    match c with
    | .text _ => []
    | .toolUse n _ => [.callTool n]

/-- A whole basic-client session: connect once, then process each query. -/
def basicClientSessionTrace (queries : List (List ModelContent)) :
    List MCPCall :=
  basicClientConnectTrace ++ queries.flatMap basicClientProcessQueryTrace

/-- The universal JSON client's per-tool-use session search
(uv-python-universal-json-client/client.py:193-199): walk the connected
sessions, issuing `list_tools` on each, until one lists the tool.  Returns
the requests issued and whether a serving session was found. -/
def universalFindSessionTrace (sessions : List (String × List String))
    (toolName : String) : List MCPCall × Bool :=
  match sessions with
  | [] => ([], false)
  | (_, toolNames) :: rest =>
    if toolNames.contains toolName then ([.listTools], true)
    else
      let (tr, found) := universalFindSessionTrace rest toolName
      (.listTools :: tr, found)

/-- The MCP requests of the universal JSON client's `process_query`
(uv-python-universal-json-client/client.py:138-246) for one model reply:
one `list_tools` per connected session up front (lines 152-161), then, for
each tool-use block, the session search's `list_tools` calls followed by
the dispatch when a serving session was found. -/
def universalClientProcessQueryTrace (sessions : List (String × List String))
    (resp : List ModelContent) : List MCPCall :=
  (sessions.map fun _ => MCPCall.listTools) ++ resp.flatMap fun c =>
    match c with
    | .text _ => []
    | .toolUse n _ =>
      let (tr, found) := universalFindSessionTrace sessions n
      tr ++ (if found then [.callTool n] else [])

/-! ## Shared helper lemmas -/

/-- A string always ends with an appended suffix. -/
theorem pyEndsWith_append (a b : String) : pyEndsWith (a ++ b) b = true := by
  rw [pyEndsWith, String.data_append, List.isSuffixOf_iff_suffix]
  exact List.suffix_append a.data b.data

/-- A string always starts with its own prefix. -/
theorem pyStartsWith_append (a b : String) : pyStartsWith (a ++ b) a = true := by
  rw [pyStartsWith, String.data_append, List.isPrefixOf_iff_prefix]
  exact List.prefix_append a.data b.data

/-- No `notes:id:` URI is the `notes:list` URI. -/
theorem notes_id_ne_notes_list (s : String) :
    (("notes:id:" ++ s) == "notes:list") = false := by
  rw [beq_eq_false_iff_ne]
  intro h
  have h2 := congrArg String.data h
  simp [String.data_append] at h2

/-! ## Claim theorems -/

/-- C1: any exception a registered tool handler raises is converted by the
server-side dispatcher into a structured failure result — the error flag
set (the envelope's success indicator false) together with the error
message — rather than being propagated; in particular the `divide` tool
called with `b = 0` yields exactly the well-formed failure envelope for
`"Cannot divide by zero"`. -/
theorem dispatch_tool_wraps_handler_exception
    (handlers : List (String × Handler)) (name : String) (h : Handler)
    (args : List (String × PyVal)) (msg : String)
    (hlook : handlers.lookup name = some h) (herr : h args = .error msg) :
    dispatch_tool handlers name args = { isError := true, content := [msg] } ∧
    dispatch_tool mathServerHandlers "divide"
        [("a", .vFloat 1), ("b", .vFloat 0)] =
      { isError := true, content := ["Cannot divide by zero"] } := by
  refine ⟨?_, rfl⟩
  simp [dispatch_tool, hlook, herr]

/-- Witness for C1 at the divide-by-zero input. -/
theorem dispatch_tool_wraps_handler_exception_witness :
    dispatch_tool mathServerHandlers "divide"
        [("a", .vFloat 1), ("b", .vFloat 0)] =
      { isError := true, content := ["Cannot divide by zero"] } :=
  (dispatch_tool_wraps_handler_exception mathServerHandlers "divide"
    divideHandler [("a", .vFloat 1), ("b", .vFloat 0)]
    "Cannot divide by zero" rfl rfl).1

/-- C5: the `add` handler returns the sum of its integer arguments, and an
`add` call with `a = 5`, `b = 3` dispatched through the server produces a
success envelope whose content block text is `"8"`. -/
theorem add_returns_sum :
    (∀ a b : Int, add a b = a + b) ∧ add 5 3 = 8 ∧
    dispatch_tool mathServerHandlers "add" [("a", .vInt 5), ("b", .vInt 3)] =
      { isError := false, content := ["8"] } :=
  ⟨fun _ _ => rfl, rfl, rfl⟩

/-- C3: for each of the schema-declared types `integer`, `number` and
`boolean`, the client's per-argument coercion either produces a value that
is an instance of the declared type with no warning, or — exactly when the
conversion fails — passes the original value through unchanged and logs
one warning; the `boolean` arm never fails. -/
theorem execute_tool_coercion_best_effort (argName : String) (v : PyVal) :
    (((coerce_argument argName "integer" v).2 = [] ∧
        pyIsInstInt (coerce_argument argName "integer" v).1 = true) ∨
      ((coerce_argument argName "integer" v).1 = v ∧
        (coerce_argument argName "integer" v).2 =
          ["Could not convert " ++ argName ++ "=" ++ pyStr v
            ++ " to integer"])) ∧
    (((coerce_argument argName "number" v).2 = [] ∧
        pyIsInstNum (coerce_argument argName "number" v).1 = true) ∨
      ((coerce_argument argName "number" v).1 = v ∧
        (coerce_argument argName "number" v).2 =
          ["Could not convert " ++ argName ++ "=" ++ pyStr v
            ++ " to number"])) ∧
    ((coerce_argument argName "boolean" v).2 = [] ∧
      pyIsInstBool (coerce_argument argName "boolean" v).1 = true) := by
  refine ⟨?_, ?_, ?_⟩
  · cases v with
    | vInt n => exact .inl ⟨rfl, rfl⟩
    | vBool b => exact .inl ⟨rfl, rfl⟩
    | vFloat q => exact .inl ⟨rfl, rfl⟩
    | vNone => exact .inr ⟨rfl, rfl⟩
    | vStr s =>
      cases hp : pyParseInt s with
      | none =>
        refine .inr ⟨?_, ?_⟩ <;>
          simp [coerce_argument, pyIsInstInt, pyInt, hp]
      | some n =>
        refine .inl ⟨?_, ?_⟩ <;>
          simp [coerce_argument, pyIsInstInt, pyInt, hp]
  · cases v with
    | vInt n => exact .inl ⟨rfl, rfl⟩
    | vBool b => exact .inl ⟨rfl, rfl⟩
    | vFloat q => exact .inl ⟨rfl, rfl⟩
    | vNone => exact .inr ⟨rfl, rfl⟩
    | vStr s =>
      cases hp : pyParseFloat s with
      | none =>
        refine .inr ⟨?_, ?_⟩ <;>
          simp [coerce_argument, pyIsInstNum, pyFloat, hp]
      | some q =>
        refine .inl ⟨?_, ?_⟩ <;>
          simp [coerce_argument, pyIsInstNum, pyFloat, hp]
  · cases v with
    | vInt n => exact ⟨rfl, rfl⟩
    | vBool b => exact ⟨rfl, rfl⟩
    | vFloat q => exact ⟨rfl, rfl⟩
    | vNone => exact ⟨rfl, rfl⟩
    | vStr s => exact ⟨rfl, rfl⟩

/-- C4: `execute_tool` only ever dispatches the requested name when it is
among the discovered tool descriptors, and a name absent from the
descriptors produces the "not found" error string with no transport
dispatch at all. -/
theorem execute_tool_unknown_tool (tools : List ToolDescriptor)
    (connected : Bool)
    (transport : String → List (String × PyVal) → List ClientContentItem)
    (name : String) (args : List (String × PyVal)) :
    ((execute_tool tools connected transport name args).2.all
      (fun ev => tools.any (fun t => t.name == ev.1)) = true) ∧
    (tools.find? (fun t => t.name == name) = none →
      execute_tool tools connected transport name args =
        ("Error: Error executing tool " ++ name ++ ": Tool '" ++ name
          ++ "' not found", [])) := by
  constructor
  · cases hf : tools.find? (fun t => t.name == name) with
    | none => simp [execute_tool, hf]
    | some t =>
      have hmem := List.mem_of_find?_eq_some hf
      have hpred : (t.name == name) = true := by
        simpa using List.find?_some hf
      cases connected with
      | false => simp [execute_tool, hf]
      | true =>
        simp only [execute_tool, hf, if_true, List.all_cons, List.all_nil,
          Bool.and_true]
        exact List.any_eq_true.mpr ⟨t, hmem, hpred⟩
  · intro h
    simp [execute_tool, h]

/-- Witness for C4 at an undiscovered tool name. -/
theorem execute_tool_unknown_tool_witness :
    execute_tool [] true (fun _ _ => []) "frobnicate" [] =
      ("Error: Error executing tool frobnicate: Tool 'frobnicate' not found",
        []) :=
  (execute_tool_unknown_tool [] true (fun _ _ => []) "frobnicate" []).2 rfl

/-- C7: with zero notes stored, reading `notes:list` yields a non-error
response whose content block is the empty JSON list, and the client's
`list notes` command renders the "No notes found" message rather than an
error. -/
theorem notes_list_empty_store :
    (get_notes_resource [] "notes:list").isError = false ∧
    (get_notes_resource [] "notes:list").content =
      [{ type := "application/json", data := "[]" }] ∧
    client_list_notes [] = .message "No notes found in the knowledge base" := by
  have hd : get_notes_resource [] "notes:list" =
      { uri := "notes:list", title := "All Notes",
        content := [{ type := "application/json", data := "[]" }] } := by
    simp [get_notes_resource, jsonDumps, jsonDumpAt]
  refine ⟨by rw [hd], by rw [hd], ?_⟩
  simp only [client_list_notes, hd]
  rfl

/-- C8: the idea count spliced into the `ideastorm` prompt template is the
requested count clamped into `[1, 20]`: counts below 1 become 1, counts
above 20 become 20, and counts already in range are used as given. -/
theorem ideastorm_count_clamped (topic perspective : String) (count : Int) :
    (ideastorm_prompt topic perspective count).messages =
      [{ role := "user",
         text := ideastormTemplate topic perspective
           (max 1 (min 20 count)) }] ∧
    1 ≤ max 1 (min 20 count) ∧ max 1 (min 20 count) ≤ 20 ∧
    max 1 (min 20 count) =
      (if count < 1 then 1 else if count ≤ 20 then count else 20) := by
  refine ⟨rfl, ?_, ?_, ?_⟩
  · omega
  · omega
  · split_ifs <;> omega

/-- C9: a URI that is not `notes:list` and starts with neither `notes:id:`
nor `notes:search:` makes the notes resource handler return its
error-flagged response listing the valid URI patterns (the handler, a total
function here, returns this response rather than raising). -/
theorem get_notes_resource_unknown_uri (store : NoteStore) (uri : String)
    (h1 : (uri == "notes:list") = false)
    (h2 : pyStartsWith uri "notes:id:" = false)
    (h3 : pyStartsWith uri "notes:search:" = false) :
    get_notes_resource store uri =
      { uri := uri, title := "Unknown Resource",
        content :=
          [{ type := "text/plain",
             data := "Unknown resource URI pattern. Valid patterns are: notes:list, notes:id:<id>, notes:search:<query>" }],
        isError := true } := by
  simp [get_notes_resource, h1, h2, h3]

/-- Witness for C9 at the URI `"weather:today"`. -/
theorem get_notes_resource_unknown_uri_witness :
    get_notes_resource [] "weather:today" =
      { uri := "weather:today", title := "Unknown Resource",
        content :=
          [{ type := "text/plain",
             data := "Unknown resource URI pattern. Valid patterns are: notes:list, notes:id:<id>, notes:search:<query>" }],
        isError := true } :=
  get_notes_resource_unknown_uri [] "weather:today" rfl rfl rfl

/-- C10: every entry `find_notes` returns previews some stored note by its
full content when the content has at most 150 characters and by its first
150 characters followed by `"..."` otherwise. -/
theorem find_notes_preview_rule (query : Option String)
    (tags : Option (List String)) (store : NoteStore) (r : FindNoteEntry)
    (hr : r ∈ (find_notes query tags store).results) :
    ∃ stem n, (stem, n) ∈ store ∧
      r.preview = (if n.content.length ≤ 150 then n.content
        else n.content.take 150 ++ "...") := by
  rw [find_notes] at hr
  simp only [List.mem_filterMap] at hr
  obtain ⟨p, hp, hf⟩ := hr
  by_cases hcond : (noteQueryPasses query p.2 && noteTagsPass tags p.2) = true
  · rw [if_pos hcond] at hf
    injection hf with hf
    refine ⟨p.1, p.2, by simpa using hp, ?_⟩
    have hrp : r.preview = notePreview p.2.content := by rw [← hf]
    rw [hrp, notePreview]
    by_cases hl : p.2.content.length > 150
    · rw [if_pos hl, if_neg (by omega)]
    · rw [if_neg hl, if_pos (by omega)]
  · rw [if_neg hcond] at hf
    exact absurd hf (by simp)

/-- Witness for C10 on a one-note store. -/
theorem find_notes_preview_rule_witness :
    ∃ stem n,
      (stem, n) ∈
        ([("hello_1234", ⟨"1234-id", "Hello", "Hi there", [], "c", "u"⟩)] :
          NoteStore) ∧
      (⟨"1234-id", "Hello", [], "c", "u", "Hi there"⟩ :
          FindNoteEntry).preview =
        (if n.content.length ≤ 150 then n.content
         else n.content.take 150 ++ "...") :=
  find_notes_preview_rule none none _ _ (by decide)

/-- Dispatch events never contribute `listTools` requests to a trace. -/
theorem countListTools_callTool_map
    (l : List (String × List (String × PyVal))) :
    countListTools (l.map fun ev => MCPCall.callTool ev.1) = 0 := by
  rw [countListTools, List.countP_eq_zero]
  intro a ha
  obtain ⟨ev, _, rfl⟩ := List.mem_map.mp ha
  simp

/-- A per-reply trace whose every block contributes no `listTools` request
yields none overall. -/
theorem countListTools_flatMap_eq_zero (f : ModelContent → List MCPCall)
    (hf : ∀ c, countListTools (f c) = 0) (resp : List ModelContent) :
    countListTools (resp.flatMap f) = 0 := by
  induction resp with
  | nil => rfl
  | cons c cs ih =>
    rw [List.flatMap_cons, countListTools, List.countP_append]
    have h1 := hf c
    rw [countListTools] at h1 ih
    omega

/-- C6 counterexample: a basic-client session that connects and then
processes a single query issues `list_tools` twice — once at connection
and once inside `process_query` — not exactly once. -/
theorem list_tools_once_counterexample :
    countListTools (basicClientSessionTrace [[ModelContent.text "hi"]]) = 2 ∧
    2 ≠ 1 := by
  refine ⟨by decide, by decide⟩

/-- In a one-session universal client, the session search always issues
exactly one `list_tools`, succeeding exactly when the session lists the
tool. -/
theorem universalFindSessionTrace_single (server : String)
    (toolNames : List String) (n : String) :
    universalFindSessionTrace [(server, toolNames)] n =
      ([MCPCall.listTools], toolNames.contains n) := by
  rw [universalFindSessionTrace]
  split <;> simp_all [universalFindSessionTrace]

/-- The tool-resolution part of a one-session universal client's query
trace issues one `list_tools` per tool-use block. -/
theorem universal_requery_count (server : String) (toolNames : List String)
    (resp : List ModelContent) :
    countListTools (resp.flatMap fun c =>
      match c with
      | .text _ => []
      | .toolUse n _ =>
        (universalFindSessionTrace [(server, toolNames)] n).1 ++
          (if (universalFindSessionTrace [(server, toolNames)] n).2 then
            [MCPCall.callTool n] else [])) = countToolUses resp := by
  induction resp with
  | nil => rfl
  | cons c cs ih =>
    rw [List.flatMap_cons, countListTools, List.countP_append,
      countToolUses, List.countP_cons]
    rw [countListTools] at ih
    rw [countToolUses] at ih
    cases c with
    | text s => simpa using ih
    | toolUse n args =>
      simp only [universalFindSessionTrace_single] at ih ⊢
      cases hc : toolNames.contains n <;> simp [hc] at ih ⊢ <;> omega

/-- C6 (amended): the full client issues `list_tools` exactly once, at
connection time, and its query processing never re-lists; the basic client
instead issues one fresh `list_tools` inside every `process_query`, and the
universal JSON client (here with one connected session) issues one per
query plus one more per tool-use block while locating the serving
session. -/
theorem list_tools_discovery_per_client :
    countListTools fullClientConnectTrace = 1 ∧
    (∀ (tools : List ToolDescriptor)
      (transport : String → List (String × PyVal) → List ClientContentItem)
      (resp : List ModelContent),
      countListTools (fullClientProcessQueryTrace tools transport resp) = 0) ∧
    (∀ resp : List ModelContent,
      countListTools (basicClientProcessQueryTrace resp) = 1) ∧
    (∀ (server : String) (toolNames : List String)
      (resp : List ModelContent),
      countListTools
          (universalClientProcessQueryTrace [(server, toolNames)] resp) =
        1 + countToolUses resp) := by
  refine ⟨rfl, ?_, ?_, ?_⟩
  · intro tools transport resp
    rw [fullClientProcessQueryTrace]
    refine countListTools_flatMap_eq_zero _ ?_ resp
    intro c
    cases c with
    | text s => rfl
    | toolUse n args => exact countListTools_callTool_map _
  · intro resp
    rw [basicClientProcessQueryTrace, countListTools, List.countP_cons]
    have h0 := countListTools_flatMap_eq_zero
      (fun c => match c with
        | .text _ => []
        | .toolUse n _ => [MCPCall.callTool n])
      (fun c => by cases c <;> rfl) resp
    rw [countListTools] at h0
    simp [h0]
  · intro server toolNames resp
    rw [universalClientProcessQueryTrace, countListTools, List.countP_append]
    have h := universal_requery_count server toolNames resp
    rw [countListTools] at h
    rw [h]
    simp

/-- C2: a note created with title `T` and content `C`, then read back
through the resource URI `notes:id:<id>` with the identifier `create_note`
returned, yields a non-error response whose title is `T` and whose content
block carries `C` unchanged inside the rendered markdown.  The identifier
hypotheses hold for every `uuid4`-generated id: such an id never contains
the `"notes:id:"` separator (so the URI parse recovers it exactly) and is
fresh for the store (no stored note carries the same id, and no stored file
stem ends with its first eight characters). -/
theorem create_note_roundtrip
    (store : NoteStore) (now noteId title content : String)
    (tags : List String)
    (hsplit : pySplit ("notes:id:" ++ noteId) "notes:id:" = ["", noteId])
    (hfresh : ∀ p ∈ store, (p.2.id == noteId) = false ∧
      pyEndsWith p.1 (noteId.take 8) = false) :
    (create_note store now noteId title content tags).2.success = true ∧
    (create_note store now noteId title content tags).2.note_id = noteId ∧
    (get_notes_resource (create_note store now noteId title content tags).1
      ("notes:id:" ++ noteId)).isError = false ∧
    (get_notes_resource (create_note store now noteId title content tags).1
      ("notes:id:" ++ noteId)).title = title ∧
    ∃ pre post,
      (get_notes_resource (create_note store now noteId title content tags).1
        ("notes:id:" ++ noteId)).content =
        [{ type := "text/markdown", data := pre ++ content ++ post }] := by
  have hany : store.any
      (fun p => p.1 == safeTitle title ++ "_" ++ noteId.take 8) = false := by
    rw [List.any_eq_false]
    intro p hp h
    have hpe : p.1 = safeTitle title ++ "_" ++ noteId.take 8 := eq_of_beq h
    have h2 := (hfresh p hp).2
    rw [hpe, pyEndsWith_append] at h2
    cases h2
  have hstore : (create_note store now noteId title content tags).1 =
      store ++ [(safeTitle title ++ "_" ++ noteId.take 8,
        ⟨noteId, title, content, tags, now, now⟩)] := by
    show writeNoteFile store _ _ = _
    rw [writeNoteFile, hany]
    simp
  have hfind : ((store ++ [(safeTitle title ++ "_" ++ noteId.take 8,
      (⟨noteId, title, content, tags, now, now⟩ : Note))]).find?
        (fun p => p.2.id == noteId || pyEndsWith p.1 (noteId.take 8))) =
      some (safeTitle title ++ "_" ++ noteId.take 8,
        ⟨noteId, title, content, tags, now, now⟩) := by
    rw [List.find?_append]
    have h1 : store.find?
        (fun p => p.2.id == noteId || pyEndsWith p.1 (noteId.take 8)) = none :=
      List.find?_eq_none.mpr fun p hp => by
        have h := hfresh p hp
        simp [h.1, h.2]
    rw [h1, Option.none_or]
    simp [List.find?]
  have hresp : get_notes_resource
      (create_note store now noteId title content tags).1
      ("notes:id:" ++ noteId) =
      { uri := "notes:id:" ++ noteId, title := title,
        content :=
          [{ type := "text/markdown",
             data := "# " ++ title ++ "\n\n" ++ content ++ "\n\nTags: "
               ++ String.intercalate ", " tags }] } := by
    rw [hstore, get_notes_resource]
    rw [if_neg (by simp [notes_id_ne_notes_list noteId])]
    rw [if_pos (by simp [pyStartsWith_append "notes:id:" noteId])]
    simp only [hsplit]
    rw [show (["", noteId].getD 1 "") = noteId from rfl]
    rw [hfind]
  refine ⟨rfl, rfl, by rw [hresp], by rw [hresp],
    "# " ++ title ++ "\n\n", "\n\nTags: " ++ String.intercalate ", " tags, ?_⟩
  rw [hresp, ← String.append_assoc]

/-- Witness for C2: one concrete note round-trips through an empty store. -/
theorem create_note_roundtrip_witness :
    (create_note [] "2024-01-01T00:00:00"
      "9f8b7c6d-1111-2222-3333-444455556666" "Trip Title"
      "Trip content body" ["travel"]).2.success = true ∧
    (create_note [] "2024-01-01T00:00:00"
      "9f8b7c6d-1111-2222-3333-444455556666" "Trip Title"
      "Trip content body" ["travel"]).2.note_id =
        "9f8b7c6d-1111-2222-3333-444455556666" ∧
    (get_notes_resource (create_note [] "2024-01-01T00:00:00"
      "9f8b7c6d-1111-2222-3333-444455556666" "Trip Title"
      "Trip content body" ["travel"]).1
      ("notes:id:" ++ "9f8b7c6d-1111-2222-3333-444455556666")).isError =
        false ∧
    (get_notes_resource (create_note [] "2024-01-01T00:00:00"
      "9f8b7c6d-1111-2222-3333-444455556666" "Trip Title"
      "Trip content body" ["travel"]).1
      ("notes:id:" ++ "9f8b7c6d-1111-2222-3333-444455556666")).title =
        "Trip Title" ∧
    ∃ pre post,
      (get_notes_resource (create_note [] "2024-01-01T00:00:00"
        "9f8b7c6d-1111-2222-3333-444455556666" "Trip Title"
        "Trip content body" ["travel"]).1
        ("notes:id:" ++ "9f8b7c6d-1111-2222-3333-444455556666")).content =
        [{ type := "text/markdown",
           data := pre ++ "Trip content body" ++ post }] :=
  create_note_roundtrip [] "2024-01-01T00:00:00"
    "9f8b7c6d-1111-2222-3333-444455556666" "Trip Title" "Trip content body"
    ["travel"] (by decide) (by simp)

end MCPExamples
